import Mathlib

/-!
Shallow embedding of the pyairbnb FastAPI wrapper (`app.py`) and of the
API-key extraction step of `src/pyairbnb/api.py`.

Python values are modelled by the inductive `PyVal`; Python floats are
modelled as exact rationals (`Rat`).  Code that can raise an exception is
modelled in `Except Unit` (an `AttributeError` / `KeyError` / parse failure
is `Except.error ()`).  HTTP errors raised through `HTTPException` are
modelled by the `HttpErr` type, and an uncaught Python exception escaping a
route handler is `Failure.exn`.
-/

/-- A Python value, as used by the wrapper: `None`, booleans, ints, floats
(modelled as exact rationals), strings, dicts (association lists) and
lists. -/
inductive PyVal where
  | none : PyVal
  | bool : Bool → PyVal
  | int : Int → PyVal
  | float : Rat → PyVal
  | str : String → PyVal
  | dict : List (String × PyVal) → PyVal
  | list : List PyVal → PyVal

/-- Python `v is None`. -/
def isPyNone : PyVal → Bool
  | PyVal.none => true
  | _ => false

/-- Python `v == "dummy"` (true exactly for the equal string). -/
def isDummyStr : PyVal → Bool
  | PyVal.str s => s = "dummy"
  | _ => false

/-- Python truthiness: `None`, `False`, `0`, `0.0`, `""`, `{}` and `[]` are
falsy, everything else is truthy. -/
def truthy : PyVal → Bool
  | PyVal.none => false
  | PyVal.bool b => b
  | PyVal.int n => n != 0
  | PyVal.float q => q != 0
  | PyVal.str s => s != ""
  | PyVal.dict es => !es.isEmpty
  | PyVal.list vs => !vs.isEmpty

/-- Python `a or b` on already-computed values: `a` if truthy, else `b`. -/
def pyOr (a b : PyVal) : PyVal := if truthy a then a else b

/-- Python `v.get(k, d)`: on a dict, the stored value if the key is present
(even a stored `None`) and otherwise the default `d`; on any non-dict value
an `AttributeError` is raised. -/
def getAttr (v : PyVal) (k : String) (d : PyVal) : Except Unit PyVal :=
  match v with
  | PyVal.dict es => Except.ok ((es.lookup k).getD d)
  | _ => Except.error ()

/-- Python `v.get(k)` (default `None`). -/
def pyGet (v : PyVal) (k : String) : Except Unit PyVal := getAttr v k PyVal.none

/-- Python `v[k]` on a dict: `KeyError` when absent, `TypeError`-like error
on a non-dict. -/
def pyIndex (v : PyVal) (k : String) : Except Unit PyVal :=
  match v with
  | PyVal.dict es =>
    match es.lookup k with
    | some x => Except.ok x
    | Option.none => Except.error ()
  | _ => Except.error ()

/-- Python `A or B` where the operands may raise: `A` is evaluated first and
its exception propagates; when `A` is truthy its value is returned and `B`
is never consulted; otherwise the result (or exception) of `B`. -/
def orElseE (a b : Except Unit PyVal) : Except Unit PyVal :=
  match a with
  | Except.error e => Except.error e
  | Except.ok v => if truthy v then Except.ok v else b

/-- `_slim` from `app.py` (lines 36-54), field for field and in source
evaluation order:
`listing = hit.get("listing") or hit`,
`pricing = hit.get("pricingQuote") or hit.get("price", {})`, and the eight
output entries `id`, `title`, `price`, `rating`, `reviews`, `lat`, `lon`,
`url`, each an `or`-chain of `.get` probes. -/
def _slim (hit : PyVal) : Except Unit PyVal := do
  let listing0 ← pyGet hit "listing"
  let listing := pyOr listing0 hit
  let pricing ← orElseE (pyGet hit "pricingQuote") (getAttr hit "price" (PyVal.dict []))
  let idv ← orElseE (pyGet listing "id") (pyGet listing "listingId")
  let titlev ← orElseE (pyGet listing "name") (pyGet listing "title")
  let pricev ← orElseE
      (do
        let r ← getAttr pricing "rate" (PyVal.dict [])
        pyGet r "amount")
      (pyGet pricing "label")
  let ratingv ← orElseE (pyGet listing "avgRating")
      (do
        let r ← getAttr hit "rating" (PyVal.dict [])
        pyGet r "guestSatisfaction")
  let reviewsv ← orElseE (pyGet listing "reviewsCount")
      (do
        let r ← getAttr hit "rating" (PyVal.dict [])
        pyGet r "reviewsCount")
  let latv ← orElseE (pyGet listing "lat")
      (do
        let c ← getAttr listing "coordinates" (PyVal.dict [])
        pyGet c "latitude")
  let lonv ← orElseE (pyGet listing "lng")
      (do
        let c ← getAttr listing "coordinates" (PyVal.dict [])
        pyGet c "longitude")
  let urlv ← pyGet listing "url"
  pure (PyVal.dict
    [("id", idv), ("title", titlev), ("price", pricev), ("rating", ratingv),
     ("reviews", reviewsv), ("lat", latv), ("lon", lonv), ("url", urlv)])

/-- Field `k` of a normalizer result, when the result is a dict that has the
key; `Option.none` when the call raised, returned a non-dict, or lacks the
key. -/
def outField (r : Except Unit PyVal) (k : String) : Option PyVal :=
  match r with
  | Except.ok (PyVal.dict es) => es.lookup k
  | _ => Option.none

/-- The list of output keys of a normalizer result, when it is a dict. -/
def outKeys (r : Except Unit PyVal) : Option (List String) :=
  match r with
  | Except.ok (PyVal.dict es) => Option.some (es.map Prod.fst)
  | _ => Option.none

/-! ## Geo-Box Calculator (`app.py` lines 22-26, 170-172) -/

/-- `_DEG_PER_MILE = 1 / 69.0` (line 22), with the float modelled as the
exact rational. -/
def DEG_PER_MILE : Rat := 1 / 69

/-- `miles_to_deg(mi) = mi * _DEG_PER_MILE` (lines 25-26). -/
def miles_to_deg (mi : Rat) : Rat := mi * DEG_PER_MILE

/-- Lines 170-172 of `search_listings`:
`deg = miles_to_deg(radius); ne_lat, ne_lon = lat + deg, lon + deg;
sw_lat, sw_lon = lat - deg, lon - deg`, packaged as the tuple
`(ne_lat, ne_lon, sw_lat, sw_lon)`. -/
def boundingBox (lat lon radius : Rat) : Rat × Rat × Rat × Rat :=
  let deg := miles_to_deg radius
  (lat + deg, lon + deg, lat - deg, lon - deg)

/-! ## `clean_int` (`app.py` lines 29-34)

`clean_int(val, default)` is `int(float(val))` with any exception mapped to
`default`, over the annotated domain `str | int | float | None`.

`float(s)` on a string is CPython's conversion: Unicode whitespace is
allowed (only) at both ends, Unicode decimal digits (category Nd) are
mapped to their values, the literal grammar is
`[+-] digitpart [. [digitpart]] [(e|E) [+-] digitpart]` (or
`[+-] . digitpart ...`) with PEP 515 single underscores between digits,
and the exact decimal value is then rounded to IEEE-754 binary64 with
round-to-nearest, ties-to-even.  `int(.)` of the resulting float truncates
toward zero; it raises `OverflowError` on an infinite float, so a string
that parses but overflows yields the default, the same way a
`ValueError`/`TypeError` does.  The spellings `inf`/`infinity`/`nan` are
rejected by the parser here; Python accepts them in `float(.)` but
`int(.)` then raises, so `clean_int` returns the default either way.
An int input is also converted through `float(.)` first (rounding, and
overflowing for huge ints); a float input is already a binary64 value, so
`int(.)` just truncates it. -/

/-- Python whitespace (`Py_UNICODE_ISSPACE`): the set stripped around a
float literal by `float(.)` and matched by `\s` in a `str`-compiled
pattern. -/
def pyWs (c : Char) : Bool :=
  let n := c.toNat
  (0x9 ≤ n && n ≤ 0xD) || (0x1C ≤ n && n ≤ 0x1F) || n == 0x20 || n == 0x85 ||
  n == 0xA0 || n == 0x1680 || (0x2000 ≤ n && n ≤ 0x200A) || n == 0x2028 ||
  n == 0x2029 || n == 0x202F || n == 0x205F || n == 0x3000

/-- First code points of the Unicode 15.0 `Nd` (decimal digit) ranges; each
range is ten consecutive code points with values 0-9.  This is the digit
set CPython's `float(.)` maps to ASCII before parsing. -/
def ndRangeStarts : List Nat :=
  [0x30, 0x660, 0x6F0, 0x7C0, 0x966, 0x9E6, 0xA66, 0xAE6, 0xB66, 0xBE6,
   0xC66, 0xCE6, 0xD66, 0xDE6, 0xE50, 0xED0, 0xF20, 0x1040, 0x1090, 0x17E0,
   0x1810, 0x1946, 0x19D0, 0x1A80, 0x1A90, 0x1B50, 0x1BB0, 0x1C40, 0x1C50,
   0xA620, 0xA8D0, 0xA900, 0xA9D0, 0xA9F0, 0xAA50, 0xABF0, 0xFF10, 0x104A0,
   0x10D30, 0x11066, 0x110F0, 0x11136, 0x111D0, 0x112F0, 0x11450, 0x114D0,
   0x11650, 0x116C0, 0x11730, 0x118E0, 0x11950, 0x11C50, 0x11D50, 0x11DA0,
   0x11F50, 0x16A60, 0x16AC0, 0x16B50, 0x1D7CE, 0x1D7D8, 0x1D7E2, 0x1D7EC,
   0x1D7F6, 0x1E140, 0x1E2F0, 0x1E4F0, 0x1E950, 0x1FBF0]

/-- The decimal value of a Unicode digit, `Option.none` for non-digits. -/
def decDigitVal (c : Char) : Option Nat :=
  match ndRangeStarts.find? (fun s => s ≤ c.toNat && c.toNat < s + 10) with
  | Option.some s => Option.some (c.toNat - s)
  | Option.none => Option.none

/-- Whether a character is a Unicode decimal digit. -/
def isDecDigit (c : Char) : Bool := (decDigitVal c).isSome

/-- The numeric value of a list of decimal digit characters. -/
def digitsToNat (l : List Char) : Nat :=
  l.foldl (fun a c => 10 * a + ((decDigitVal c).getD 0)) 0

/-- Greedily consume a `digitpart` — `digit (["_"] digit)*`, PEP 515:
single underscores directly between two digits — returning the digits
(underscores removed) and the unconsumed remainder. -/
def digitsU : List Char → List Char × List Char
  | [] => ([], [])
  | c :: '_' :: c2 :: r2 =>
    if isDecDigit c then
      if isDecDigit c2 then
        let p := digitsU (c2 :: r2)
        (c :: p.1, p.2)
      else (c :: ([] : List Char), '_' :: c2 :: r2)
    else ([], c :: '_' :: c2 :: r2)
  | c :: rest =>
    if isDecDigit c then
      let p := digitsU rest
      (c :: p.1, p.2)
    else ([], c :: rest)

/-- Parse an unsigned mantissa `digitpart [. [digitpart]]` or
`. digitpart` (at least one digit in total): its digits as an integer, the
decimal-point shift of the exponent, and the unconsumed remainder. -/
def parseMantissa (l : List Char) : Option (Int × Int × List Char) :=
  let p1 := digitsU l
  match p1.2 with
  | '.' :: r2 =>
    let p2 := digitsU r2
    if p1.1.isEmpty && p2.1.isEmpty then Option.none
    else Option.some ((digitsToNat (p1.1 ++ p2.1) : Int), -(p2.1.length : Int), p2.2)
  | _ =>
    if p1.1.isEmpty then Option.none
    else Option.some ((digitsToNat p1.1 : Int), 0, p1.2)

/-- An exponent body: a `digitpart` that must consume the whole
remainder. -/
def expDigits (l : List Char) : Option Int :=
  let p := digitsU l
  if p.1.isEmpty || !p.2.isEmpty then Option.none
  else Option.some (digitsToNat p.1 : Int)

/-- Parse an optional exponent part `([eE][+-]?digitpart)` that must
consume the whole remainder. -/
def parseExpPart (l : List Char) : Option Int :=
  match l with
  | [] => Option.some 0
  | 'e' :: r =>
    (match r with
     | '+' :: r2 => expDigits r2
     | '-' :: r2 => (expDigits r2).map (fun n => -n)
     | _ => expDigits r)
  | 'E' :: r =>
    (match r with
     | '+' :: r2 => expDigits r2
     | '-' :: r2 => (expDigits r2).map (fun n => -n)
     | _ => expDigits r)
  | _ => Option.none

/-- Strip Python whitespace from both ends of a character list. -/
def stripWs (l : List Char) : List Char :=
  ((l.dropWhile pyWs).reverse.dropWhile pyWs).reverse

/-- The decimal-literal part of Python `float(s)`: `Option.none` when
`float(s)` raises `ValueError`, otherwise the pair `(m, e)` with exact
value `m * 10 ^ e`. -/
def parseFloatLit (s : String) : Option (Int × Int) :=
  let l := stripWs s.data
  let signAndRest : Bool × List Char :=
    match l with
    | '+' :: r => (false, r)
    | '-' :: r => (true, r)
    | _ => (false, l)
  match parseMantissa signAndRest.2 with
  | Option.none => Option.none
  | Option.some (m, shift, rest) =>
    match parseExpPart rest with
    | Option.none => Option.none
    | Option.some e =>
      Option.some (if signAndRest.1 then -m else m, shift + e)

/-- Whether `2 ^ E ≤ num / den` (for `den > 0`), by exact integer
comparison. -/
def pow2le (den num : Nat) (E : Int) : Bool :=
  if 0 ≤ E then den <<< E.toNat ≤ num else den ≤ num <<< (-E).toNat

/-- The binary exponent `⌊log2 (num / den)⌋`, by binary search with
`pow2le`; exact whenever the true exponent lies in `[-1081, 3014]`, the
only window `floatRound` consults it in. -/
def findE (den num : Nat) : Int :=
  [2048, 1024, 512, 256, 128, 64, 32, 16, 8, 4, 2, 1].foldl
    (fun acc k => if pow2le den num (acc + k) then acc + k else acc) (-1081)

/-- Round `a * 10 ^ e` (nonnegative) to IEEE-754 binary64 with
round-to-nearest, ties-to-even: `Option.some (m1, Ec)` denotes the rounded
value `m1 * 2 ^ (Ec - 52)` (`Ec = -1022` covers zero and subnormals), and
`Option.none` is overflow to infinity.  Values at or above `2 ^ 1024` and
values whose rounded significand reaches `2 ^ (1076 - Ec)` overflow;
values below `2 ^ (-1080)` round to zero. -/
def floatRound (a : Nat) (e : Int) : Option (Nat × Int) :=
  if a = 0 then Option.some (0, -1022)
  else
    let num0 := if 0 ≤ e then a * 10 ^ e.toNat else a
    let den0 := if 0 ≤ e then 1 else 10 ^ (-e).toNat
    if pow2le den0 num0 1024 then Option.none
    else if !(pow2le den0 num0 (-1080)) then Option.some (0, -1022)
    else
      let E := findE den0 num0
      let Ec : Int := max E (-1022)
      let t : Int := 52 - Ec
      let num := if 0 ≤ t then num0 <<< t.toNat else num0
      let den := if 0 ≤ t then den0 else den0 <<< (-t).toNat
      let m0 := num / den
      let r := num % den
      let m1 := if den < 2 * r then m0 + 1
                else if 2 * r < den then m0
                else if m0 % 2 = 0 then m0 else m0 + 1
      if 1 <<< (1076 - Ec).toNat ≤ m1 then Option.none
      else Option.some (m1, Ec)

/-- Python `int(.)` of the nonnegative float `m1 * 2 ^ (Ec - 52)`:
truncation toward zero (floor, as the value is nonnegative). -/
def truncFloat (m1 : Nat) (Ec : Int) : Nat :=
  if 0 ≤ Ec - 52 then m1 <<< (Ec - 52).toNat else m1 >>> (52 - Ec).toNat

/-- The exact rational value of the float `m1 * 2 ^ (Ec - 52)`. -/
def floatPairValQ (m1 : Nat) (Ec : Int) : Rat := (m1 : Rat) * (2 : Rat) ^ (Ec - 52)

/-- Truncation toward zero of a rational, as Python `int(.)` on a float. -/
def ratTrunc (q : Rat) : Int := Int.tdiv q.num (q.den : Int)

/-- `int(float(.))` of the exact decimal value `m * 10 ^ e`:
round to binary64, then truncate toward zero; `Option.none` is the
`OverflowError` raised by `int(.)` on an infinite float. -/
def intOfFloat (m e : Int) : Option Int :=
  match floatRound m.natAbs e with
  | Option.some p =>
    Option.some (if m < 0 then -(truncFloat p.1 p.2 : Int) else (truncFloat p.1 p.2 : Int))
  | Option.none => Option.none

/-- `clean_int(val, default)` (lines 29-34): `int(float(val))` case by case
over the annotated domain — a bool converts as 0/1, an int is converted to
a float (rounding; overflow yields the default), a float truncates toward
zero, a string is parsed and rounded then truncated (with the default on
`ValueError` or `OverflowError`), and `None` (for which `float(None)`
raises `TypeError`) yields the default. -/
def clean_int (val : PyVal) (dflt : Int) : Int :=
  match val with
  | PyVal.bool b => if b then 1 else 0
  | PyVal.int n =>
    match intOfFloat n 0 with
    | Option.some k => k
    | Option.none => dflt
  | PyVal.float q => ratTrunc q
  | PyVal.str s =>
    match parseFloatLit s with
    | Option.some me =>
      match intOfFloat me.1 me.2 with
      | Option.some k => k
      | Option.none => dflt
    | Option.none => dflt
  | _ => dflt

/-! ## Route handlers (`app.py` lines 97-190) -/

/-- HTTP error statuses raised by the handlers through `HTTPException`. -/
inductive HttpErr where
  | unauthorized : HttpErr
  | badRequest : HttpErr
  | notFound : HttpErr
  | badGateway : HttpErr
deriving DecidableEq

/-- A failed request: either an `HTTPException` with one of the statuses
above, or an uncaught Python exception escaping the handler. -/
inductive Failure where
  | http : HttpErr → Failure
  | exn : Failure
deriving DecidableEq

/-- The JSON body returned by `/search` (lines 185-190). -/
structure SearchResponse where
  centre_lat : Rat
  centre_lon : Rat
  radius_mi : Rat
  count : Nat
  listings : List PyVal

/-- The external search collaborator `pyairbnb.search_all`, abstracted:
it receives `check_in`, `check_out`, the four bounding-box corners and the
cleaned price bounds, and either returns the raw hits or raises. -/
def SearchCollab : Type :=
  Option String → Option String → Rat → Rat → Rat → Rat → Int → Int →
    Except Unit (List PyVal)

/-- `search_listings` (`app.py` lines 151-190): token gate, price parsing
and validation, bounding-box computation, the external search call (whose
exception becomes HTTP 502), and per-hit normalization by `_slim` (an
exception there escapes the handler uncaught). -/
def search_listings (apiToken : String) (searchAll : SearchCollab)
    (lat lon radius : Rat) (price_min price_max : String)
    (check_in check_out : Option String) (token : String) :
    Except Failure SearchResponse :=
  if token ≠ apiToken then Except.error (Failure.http HttpErr.unauthorized)
  else
    let pmin := clean_int (PyVal.str price_min) 0
    let pmax := clean_int (PyVal.str price_max) 10000
    if pmin ≥ pmax then Except.error (Failure.http HttpErr.badRequest)
    else
      match boundingBox lat lon radius with
      | (ne_lat, ne_lon, sw_lat, sw_lon) =>
        match searchAll check_in check_out ne_lat ne_lon sw_lat sw_lon pmin pmax with
        | Except.error _ => Except.error (Failure.http HttpErr.badGateway)
        | Except.ok raw_hits =>
          match raw_hits.mapM _slim with
          | Except.error _ => Except.error Failure.exn
          | Except.ok slims =>
            Except.ok ⟨lat, lon, radius, raw_hits.length, slims⟩

/-- The external collaborators used by `/calendar`, abstracted. -/
structure CalendarDeps where
  detailsGet : String → Except Unit (PyVal × PyVal × PyVal)
  simpleGet : String → Except Unit String
  priceGet : PyVal → PyVal → PyVal → PyVal → String → String → Except Unit PyVal
  getCalendar : String → Except Unit PyVal

/-- `https://www.airbnb.com/rooms/{room_id}` (with the braces spelt out). -/
def roomUrl (room : String) : String := "https://www.airbnb.com/rooms/" ++ room

/-- The public `.ics` feed URL for a room. -/
def icsUrl (room : String) : String :=
  "https://www.airbnb.com/calendar/ical/" ++ room ++ ".ics?s=1"

/-- The fake-but-consistent placeholder `price_input` of the fallback path
(`app.py` lines 76-79). -/
def dummyPriceInput (room : String) : PyVal :=
  PyVal.dict [("api_key", PyVal.str "dummy"), ("impression_id", PyVal.str "0"),
              ("product_id", PyVal.str room)]

/-- `needle.isPrefixOf`-based substring test for a non-empty needle,
modelling Python `needle in hay`. -/
def containsList (needle : List Char) : List Char → Bool
  | [] => needle.isEmpty
  | c :: t => needle.isPrefixOf (c :: t) || containsList needle t

/-- Python `needle in hay` on strings. -/
def containsStr (hay needle : String) : Bool := containsList needle.data hay.data

/-- `_details_with_fallback` (`app.py` lines 57-87): try
`pyairbnb.details.get`; on truthy details return them; otherwise probe the
public `.ics` feed and, when it contains `BEGIN:VCALENDAR`, return empty
details with the dummy price input; otherwise raise HTTP 404.  An exception
from `details.get` itself escapes uncaught. -/
def _details_with_fallback (deps : CalendarDeps) (room : String) :
    Except Failure (PyVal × PyVal × PyVal) :=
  match deps.detailsGet (roomUrl room) with
  | Except.error _ => Except.error Failure.exn
  | Except.ok (deets, price_input, cookies) =>
    if truthy deets then Except.ok (deets, price_input, cookies)
    else
      match deps.simpleGet (icsUrl room) with
      | Except.ok ics_text =>
        if containsStr ics_text "BEGIN:VCALENDAR" then
          Except.ok (PyVal.dict [], dummyPriceInput room, PyVal.dict [])
        else Except.error (Failure.http HttpErr.notFound)
      | Except.error _ => Except.error (Failure.http HttpErr.notFound)

/-- `calendar` (`app.py` lines 97-148): token gate, details with fallback,
optional pricing (any exception inside the pricing `try` yields `None`),
calendar with `.ics`-URL fallback, and the response dict. -/
def calendar (apiToken : String) (deps : CalendarDeps)
    (room check_in check_out token : String) : Except Failure PyVal :=
  if token ≠ apiToken then Except.error (Failure.http HttpErr.unauthorized)
  else
    match _details_with_fallback deps room with
    | Except.error f => Except.error f
    | Except.ok (details, price_input, cookies) =>
      match pyGet price_input "api_key" with
      | Except.error _ => Except.error Failure.exn
      | Except.ok apiKeyVal =>
        let pricing : PyVal :=
          if !(isDummyStr apiKeyVal) then
            match (do
              let ak ← pyIndex price_input "api_key"
              let im ← pyIndex price_input "impression_id"
              let pr ← pyIndex price_input "product_id"
              deps.priceGet ak cookies im pr check_in check_out : Except Unit PyVal) with
            | Except.ok p => p
            | Except.error _ => PyVal.none
          else PyVal.none
        let calRes : PyVal :=
          match deps.getCalendar room with
          | Except.ok c => c
          | Except.error _ => PyVal.none
        let calendar_data : PyVal :=
          if isPyNone calRes then PyVal.dict [("ics", PyVal.str (icsUrl room))]
          else calRes
        Except.ok (PyVal.dict
          [("room_id", PyVal.str room), ("details", pyOr details PyVal.none),
           ("pricing", pricing), ("calendar", calendar_data)])

/-! ## API-key extraction (`src/pyairbnb/api.py`)

The compiled pattern `regx_api_key` is
`"api_config"\s*:\s*\{\s*"key"\s*:\s*"(?P<key>[^"]+)"` (with `re.DOTALL`,
which only affects `.` and is irrelevant here).  `matchKeyAt` is that
pattern anchored at a position: the literal `"api_config"`, optional
whitespace, `:`, optional whitespace, an opening brace, optional
whitespace, the literal `"key"`, optional whitespace, `:`, optional
whitespace, `"`, then the `key` capture group — one or more non-quote
characters — and the closing `"`.  `re.search` takes the leftmost matching
position, which `findKey` implements by scanning positions left to
right. -/

/-- Consume an exact literal character sequence. -/
def eatLit : List Char → List Char → Option (List Char)
  | [], l => Option.some l
  | _ :: _, [] => Option.none
  | c :: cs, x :: xs => if x = c then eatLit cs xs else Option.none

/-- Consume one exact character. -/
def eatChar (c : Char) : List Char → Option (List Char)
  | [] => Option.none
  | x :: xs => if x = c then Option.some xs else Option.none

/-- `\s*`: the pattern is compiled from a `str` without `re.ASCII`, so
`\s` matches Python's Unicode whitespace set `pyWs`. -/
def skipWs (l : List Char) : List Char := l.dropWhile pyWs

/-- The `regx_api_key` pattern anchored at the start of `l`; on success the
contents of the `key` capture group. -/
def matchKeyAt (l : List Char) : Option String := do
  let l ← eatLit "\"api_config\"".data l
  let l ← eatChar ':' (skipWs l)
  let l ← eatChar '\x7b' (skipWs l)
  let l ← eatLit "\"key\"".data (skipWs l)
  let l ← eatChar ':' (skipWs l)
  let l ← eatChar '"' (skipWs l)
  let cap := l.takeWhile (fun c => c ≠ '"')
  let rest := l.dropWhile (fun c => c ≠ '"')
  match cap, rest with
  | [], _ => Option.none
  | _ :: _, '"' :: _ => Option.some (String.mk cap)
  | _ :: _, _ => Option.none

/-- `re.search`: the capture of the pattern's match at the leftmost
position where it matches, scanning left to right. -/
def findKey : List Char → Option String
  | [] => matchKeyAt []
  | c :: t =>
    match matchKeyAt (c :: t) with
    | Option.some k => Option.some k
    | Option.none => findKey t

/-- The API-key extraction step of `pyairbnb.api.get` (lines 68-76) on a
fetched page body: the `key` group of the first match of `regx_api_key`,
or a `RuntimeError` when the pattern does not match. -/
def api_get (body : String) : Except Unit String :=
  match findKey body.data with
  | Option.some k => Except.ok k
  | Option.none => Except.error ()

/-! ## Shape predicates and concrete fixtures -/

/-- Whether a value is a Python mapping (dict). -/
def isMapping : PyVal → Bool
  | PyVal.dict _ => true
  | _ => false

/-- Total dict lookup with default: the stored value when `v` is a dict
containing `k`, else `d`. -/
def getd (v : PyVal) (k : String) (d : PyVal) : PyVal :=
  match v with
  | PyVal.dict es => (es.lookup k).getD d
  | _ => d

/-- The listing scope `_slim` selects: `hit.get("listing") or hit`. -/
def listingScope (hit : PyVal) : PyVal := pyOr (getd hit "listing" PyVal.none) hit

/-- The pricing value `_slim` selects:
`hit.get("pricingQuote") or hit.get("price", {})`. -/
def pricingScope (hit : PyVal) : PyVal :=
  pyOr (getd hit "pricingQuote" PyVal.none) (getd hit "price" (PyVal.dict []))

/-- A record is well-shaped for `_slim` when it is a dict and every value
`_slim` calls `.get` on — the selected listing scope, the selected pricing
value, and the `rate`, `rating` and `coordinates` values it reaches — is a
dict. -/
def wellShaped (hit : PyVal) : Bool :=
  isMapping hit && isMapping (listingScope hit) && isMapping (pricingScope hit) &&
  isMapping (getd (pricingScope hit) "rate" (PyVal.dict [])) &&
  isMapping (getd hit "rating" (PyVal.dict [])) &&
  isMapping (getd (listingScope hit) "coordinates" (PyVal.dict []))

/-- Whether a normalizer call returned (did not raise) with a dict. -/
def okDict : Except Unit PyVal → Bool
  | Except.ok (PyVal.dict _) => true
  | _ => false

/-- The spec's end-to-end scenario record
`{"listing": {"id": 27955738, "name": "Loft"}, "price": {"label": "$120/night"}}`. -/
def r5 : PyVal := PyVal.dict
  [("listing", PyVal.dict [("id", PyVal.int 27955738), ("name", PyVal.str "Loft")]),
   ("price", PyVal.dict [("label", PyVal.str "$120/night")])]

/-- The value `_slim` returns for `r5`. -/
def out5 : PyVal := PyVal.dict
  [("id", PyVal.int 27955738), ("title", PyVal.str "Loft"),
   ("price", PyVal.str "$120/night"), ("rating", PyVal.none),
   ("reviews", PyVal.none), ("lat", PyVal.none), ("lon", PyVal.none),
   ("url", PyVal.none)]

/-- A record whose latitude is present only at its lowest-priority
candidate location, top-level `coordinates.latitude = 40.0`, with no nested
`listing.lat` and no nested `listing.coordinates` — but with a (truthy)
nested `listing` dict. -/
def rc1 : PyVal := PyVal.dict
  [("listing", PyVal.dict [("id", PyVal.int 1)]),
   ("coordinates", PyVal.dict [("latitude", PyVal.float 40)])]

/-- A search collaborator that returns the single raw hit `r5`. -/
def collabFix : SearchCollab := fun _ _ _ _ _ _ _ _ => Except.ok [r5]

/-- A search collaborator that always raises. -/
def collab0 : SearchCollab := fun _ _ _ _ _ _ _ _ => Except.error ()

/-- Calendar collaborators that always raise. -/
def deps0 : CalendarDeps :=
  ⟨fun _ => Except.error (), fun _ => Except.error (),
   fun _ _ _ _ _ _ => Except.error (), fun _ => Except.error ()⟩

/-- A page body containing one occurrence of the api-key pattern. -/
def body0 : String := "junk \"api_config\": \x7b \"key\": \"SECRET\" more"

/-! ## Helper lemmas -/

@[simp] theorem ok_bind {α β : Type} (v : α) (f : α → Except Unit β) :
    (Except.ok v >>= f : Except Unit β) = f v := rfl

@[simp] theorem pure_eq_ok {α : Type} (v : α) :
    (pure v : Except Unit α) = Except.ok v := rfl

@[simp] theorem orElseE_ok (a w : PyVal) :
    orElseE (Except.ok a) (Except.ok w) = Except.ok (pyOr a w) := by
  simp only [orElseE, pyOr]
  split <;> rfl

@[simp] theorem ite_ok {α : Type} (c : Prop) [Decidable c] (a b : α) :
    (if c then Except.ok a else Except.ok b : Except Unit α) = Except.ok (if c then a else b) :=
  (apply_ite Except.ok c a b).symm

theorem bindOkIff {α β : Type} (a : Except Unit α) (f : α → Except Unit β) (out : β) :
    (a >>= f) = Except.ok out ↔ ∃ v, a = Except.ok v ∧ f v = Except.ok out := by
  cases a <;> simp [Bind.bind, Except.bind]

theorem isMapping_iff (v : PyVal) : isMapping v = true ↔ ∃ es, v = PyVal.dict es := by
  cases v <;> simp [isMapping]

theorem mapM_slim_get? :
    ∀ (l ys : List PyVal), l.mapM _slim = Except.ok ys →
      ∀ i, (l.get? i).map _slim = (ys.get? i).map Except.ok := by
  intro l
  induction l with
  | nil =>
    intro ys h i
    simp only [List.mapM_nil, pure_eq_ok, Except.ok.injEq] at h
    subst h
    simp
  | cons a t ih =>
    intro ys h i
    rw [List.mapM_cons] at h
    rw [bindOkIff] at h
    obtain ⟨v, hv, h2⟩ := h
    rw [bindOkIff] at h2
    obtain ⟨vs, hvs, h3⟩ := h2
    simp only [pure_eq_ok, Except.ok.injEq] at h3
    subst h3
    cases i with
    | zero => simp [hv]
    | succ j => simpa using ih vs hvs j

/-! ## Claim theorems -/

/-- C4: for every center `(lat, lon)` and radius `r` in miles, the geo-box
computation of `search_listings` under the flat approximation returns
`north_east_lat = lat + r/69`, `north_east_lon = lon + r/69`,
`south_west_lat = lat - r/69`, `south_west_lon = lon - r/69` — the same
degree offset `r/69` applied to both latitude and longitude. -/
theorem flat_bounding_box_eq (lat lon r : Rat) :
    boundingBox lat lon r = (lat + r / 69, lon + r / 69, lat - r / 69, lon - r / 69) := by
  simp only [boundingBox, miles_to_deg, DEG_PER_MILE, Prod.mk.injEq]
  refine ⟨by ring, by ring, by ring, by ring⟩

/-- C5 (amended): normalizing the spec's scenario record
`{"listing": {"id": 27955738, "name": "Loft"}, "price": {"label": "$120/night"}}`
yields exactly `{id: 27955738, title: "Loft", price: "$120/night",
rating: null, reviews: null, lat: null, lon: null, url: null}` — the eight
fields of the actual output schema, with no guest-capacity field. -/
theorem slim_end_to_end : _slim r5 = Except.ok out5 := rfl

/-- C5 (counterexample): the output for the scenario record has exactly the
eight keys `id`, `title`, `price`, `rating`, `reviews`, `lat`, `lon`,
`url`; `guest_capacity` is not among them and `_slim` returns no such
field, so the claimed SlimListing with a null `guest_capacity` field is not
what the code produces. -/
theorem slim_end_to_end_no_guest_capacity :
    outKeys (_slim r5) =
      Option.some ["id", "title", "price", "rating", "reviews", "lat", "lon", "url"] ∧
    "guest_capacity" ∉ ["id", "title", "price", "rating", "reviews", "lat", "lon", "url"] ∧
    outField (_slim r5) "guest_capacity" = Option.none :=
  ⟨rfl, by decide, rfl⟩

/-- C3 (counterexample): on the record `{}` the normalizer output has
exactly eight fields — `id`, `title`, `price`, `rating`, `reviews`, `lat`,
`lon`, `url` — not the nine claimed; in particular there is no
persons/guest-capacity field and no probe of `personCapacity`. -/
theorem slim_eight_fields_counterexample :
    outKeys (_slim (PyVal.dict [])) =
      Option.some ["id", "title", "price", "rating", "reviews", "lat", "lon", "url"] ∧
    ["id", "title", "price", "rating", "reviews", "lat", "lon", "url"].length = 8 :=
  ⟨rfl, rfl⟩

/-- C3 (amended): whenever `_slim` returns, its output is a dict with
exactly the eight keys `id`, `title`, `price`, `rating`, `reviews`, `lat`,
`lon`, `url`, in that order. -/
theorem slim_output_fields (hit out : PyVal) (h : _slim hit = Except.ok out) :
    outKeys (_slim hit) =
      Option.some ["id", "title", "price", "rating", "reviews", "lat", "lon", "url"] := by
  rw [_slim] at h
  rw [bindOkIff] at h
  obtain ⟨l0, hl0, h⟩ := h
  rw [bindOkIff] at h
  obtain ⟨pr, hpr, h⟩ := h
  rw [bindOkIff] at h
  obtain ⟨idv, hid, h⟩ := h
  rw [bindOkIff] at h
  obtain ⟨titlev, htitle, h⟩ := h
  rw [bindOkIff] at h
  obtain ⟨pricev, hprice, h⟩ := h
  rw [bindOkIff] at h
  obtain ⟨ratingv, hrating, h⟩ := h
  rw [bindOkIff] at h
  obtain ⟨reviewsv, hreviews, h⟩ := h
  rw [bindOkIff] at h
  obtain ⟨latv, hlat, h⟩ := h
  rw [bindOkIff] at h
  obtain ⟨lonv, hlon, h⟩ := h
  rw [bindOkIff] at h
  obtain ⟨urlv, hurl, h⟩ := h
  simp only [pure_eq_ok, Except.ok.injEq] at h
  subst h
  simp only [_slim, hl0, ok_bind, hpr, hid, htitle, hprice, hrating, hreviews,
    hlat, hlon, hurl, pure_eq_ok]
  rfl

/-- C6: the Listing Normalizer is a pure function of its input — when the
same record is normalized twice in a batch, the two results are
identical. -/
theorem slim_deterministic (hit xs ys : PyVal)
    (h : [hit, hit].mapM _slim = Except.ok [xs, ys]) : xs = ys := by
  cases hslim : _slim hit with
  | error e =>
    rw [List.mapM_cons, hslim] at h
    simp [Bind.bind, Except.bind] at h
  | ok v =>
    rw [List.mapM_cons, hslim, ok_bind, List.mapM_cons, hslim, ok_bind,
      List.mapM_nil] at h
    simp only [pure_eq_ok, ok_bind, Except.ok.injEq, List.cons.injEq] at h
    obtain ⟨h1, h2, -⟩ := h
    rw [← h1, ← h2]

/-- C8: with a token different from the configured API token, both
`/calendar` and `/search` raise HTTP 401 — for every choice of external
collaborators and of the remaining parameters, so no collaborator is
invoked and no computation on the other parameters takes place on the
unauthorized path. -/
theorem unauthorized_first (apiToken token : String) (h : token ≠ apiToken)
    (deps : CalendarDeps) (room ci co : String) (collab : SearchCollab)
    (lat lon radius : Rat) (pminS pmaxS : String) (ciq coq : Option String) :
    calendar apiToken deps room ci co token =
      Except.error (Failure.http HttpErr.unauthorized) ∧
    search_listings apiToken collab lat lon radius pminS pmaxS ciq coq token =
      Except.error (Failure.http HttpErr.unauthorized) := by
  constructor <;> simp [calendar, search_listings, h]

/-- C1 (counterexample): the record
`{"listing": {"id": 1}, "coordinates": {"latitude": 40.0}}` presents
latitude only at its lowest-priority candidate location (top-level
`coordinates.latitude`), with no nested `listing.lat` and no nested
`listing.coordinates`; yet the normalizer returns a null latitude, not
40.0, because the truthy nested `listing` dict preempts the whole scope and
top-level `coordinates` is never probed. -/
theorem slim_lowest_priority_counterexample :
    outField (_slim rc1) "lat" = Option.some PyVal.none ∧
    outField (_slim rc1) "lat" ≠ Option.some (PyVal.float 40) :=
  ⟨rfl, fun h => PyVal.noConfusion (Option.some.inj h)⟩

/-- C1 (amended): top-level candidates are reached only when the record has
no (truthy) nested `listing`; in that case the probes do follow the fixed
order, and a record whose latitude appears only at top-level
`coordinates.latitude` yields that value — e.g. any record with no
`listing`, `lat`, `pricingQuote`, `price` or `rating` keys and with
`coordinates` a dict whose `latitude` is `v` normalizes to latitude `v`. -/
theorem slim_toplevel_fallback (es cs : List (String × PyVal)) (v : PyVal)
    (h1 : es.lookup "listing" = Option.none)
    (h2 : es.lookup "pricingQuote" = Option.none)
    (h3 : es.lookup "price" = Option.none)
    (h4 : es.lookup "rating" = Option.none)
    (h5 : es.lookup "lat" = Option.none)
    (h6 : es.lookup "coordinates" = Option.some (PyVal.dict cs))
    (h7 : cs.lookup "latitude" = Option.some v) :
    outField (_slim (PyVal.dict es)) "lat" = Option.some v := by
  simp only [_slim, pyGet, getAttr, pyOr, orElseE, truthy, h1, h2, h3, h4, h5, h6, h7,
    Option.getD_none, Option.getD_some, ok_bind, pure_eq_ok, ite_ok,
    Bool.false_eq_true, if_false, reduceIte, List.lookup_nil]
  rfl

/-- C2 (amended): on every well-shaped record — a mapping whose relevant
nested values (the selected listing scope, the selected pricing value, and
the `rate`, `rating` and `coordinates` values, where reached) are mappings
— the normalizer returns a dict SlimListing without raising.  (On records
with non-mapping nested values it can raise: see the counterexample.) -/
theorem slim_total_on_wellShaped (hit : PyVal) (h : wellShaped hit = true) :
    okDict (_slim hit) = true := by
  simp only [wellShaped, Bool.and_eq_true, isMapping_iff] at h
  obtain ⟨⟨⟨⟨⟨⟨es, rfl⟩, ls, hls⟩, ps, hps⟩, rs, hrs⟩, gs, hgs⟩, cs, hcs⟩ := h
  rw [hps] at hrs
  rw [hls] at hcs
  simp only [listingScope, pricingScope, getd] at hls hps hrs hgs hcs
  simp only [_slim, pyGet, getAttr, ok_bind, pure_eq_ok, orElseE_ok, hls, hps,
    hrs, hgs, hcs, okDict]

/-- C2 (counterexample): the record `{"listing": 5}` — malformed in that
its nested `listing` value has an unexpected non-mapping type — makes the
normalizer raise (`AttributeError` on `listing.get`), so the claim that it
never fails on malformed records does not hold. -/
theorem slim_malformed_counterexample :
    _slim (PyVal.dict [("listing", PyVal.int 5)]) = Except.error () := rfl

theorem ratTrunc_intCast (k : Int) : ratTrunc (k : Rat) = k := by
  simp [ratTrunc, Rat.num_intCast, Rat.den_intCast]

theorem ratTrunc_neg (q : Rat) : ratTrunc (-q) = -ratTrunc q := by
  simp [ratTrunc, Rat.num_neg_eq_neg_num, Rat.den_neg_eq_den, Int.neg_tdiv]

theorem ratTrunc_intCast_div_natCast (a : Int) (d : Nat) :
    ratTrunc ((a : Rat) / (d : Rat)) = a.tdiv d := by
  rcases le_or_lt 0 a with ha | ha
  · have hq : (0 : Rat) ≤ (a : Rat) / (d : Rat) :=
      div_nonneg (by exact_mod_cast ha) (by positivity)
    have hnum : 0 ≤ ((a : Rat) / (d : Rat)).num := Rat.num_nonneg.mpr hq
    rw [ratTrunc, Int.tdiv_eq_ediv hnum (Int.natCast_nonneg _), ← Rat.floor_def,
      Rat.floor_intCast_div_natCast, ← Int.tdiv_eq_ediv ha (Int.natCast_nonneg _)]
  · have ha' : 0 ≤ -a := by omega
    have h1 : (a : Rat) / (d : Rat) = -(((-a : Int) : Rat) / (d : Rat)) := by
      push_cast
      ring
    have hq : (0 : Rat) ≤ ((-a : Int) : Rat) / (d : Rat) :=
      div_nonneg (by exact_mod_cast ha') (by positivity)
    have hnum : 0 ≤ (((-a : Int) : Rat) / (d : Rat)).num := Rat.num_nonneg.mpr hq
    rw [h1, ratTrunc_neg, ratTrunc, Int.tdiv_eq_ediv hnum (Int.natCast_nonneg _),
      ← Rat.floor_def, Rat.floor_intCast_div_natCast,
      ← Int.tdiv_eq_ediv ha' (Int.natCast_nonneg _), Int.neg_tdiv, neg_neg]

theorem truncFloat_eq_ratTrunc (m1 : Nat) (Ec : Int) :
    (truncFloat m1 Ec : Int) = ratTrunc (floatPairValQ m1 Ec) := by
  rw [truncFloat, floatPairValQ]
  split
  · next he =>
    rw [Nat.shiftLeft_eq]
    obtain ⟨n, hn⟩ : ∃ n : Nat, Ec - 52 = (n : Int) :=
      ⟨(Ec - 52).toNat, (Int.toNat_of_nonneg he).symm⟩
    have h1 : (m1 : Rat) * (2 : Rat) ^ (Ec - 52) = (((m1 * 2 ^ n : Nat) : Int) : Rat) := by
      rw [hn, zpow_natCast]
      push_cast
      ring
    rw [h1, ratTrunc_intCast, hn, Int.toNat_natCast]
  · next he =>
    rw [Nat.shiftRight_eq_div_pow]
    obtain ⟨n, hn⟩ : ∃ n : Nat, Ec - 52 = -(n : Int) := ⟨(52 - Ec).toNat, by omega⟩
    have h1 : (m1 : Rat) * (2 : Rat) ^ (Ec - 52) = ((m1 : Int) : Rat) / (((2 ^ n : Nat)) : Rat) := by
      rw [hn, zpow_neg, zpow_natCast, div_eq_mul_inv]
      push_cast
      ring
    rw [h1, ratTrunc_intCast_div_natCast,
      Int.tdiv_eq_ediv (Int.natCast_nonneg m1) (Int.natCast_nonneg _),
      show (52 - Ec).toNat = n by omega]
    exact (Int.ofNat_ediv m1 (2 ^ n)).symm

/-- C7: when the external collaborator returns a list of raw records (and
the request passes the token and price checks), the search result echoes
the supplied center and radius, reports a count equal to the number of raw
records, and lists the per-record normalizations in exactly the
collaborator's order — position by position, with no re-sorting and no
deduplication. -/
theorem search_result_echoes (apiToken : String) (collab : SearchCollab)
    (lat lon radius : Rat) (pminS pmaxS : String) (ci co : Option String)
    (hits slims : List PyVal)
    (hpm : clean_int (PyVal.str pminS) 0 < clean_int (PyVal.str pmaxS) 10000)
    (hc : collab ci co (lat + miles_to_deg radius) (lon + miles_to_deg radius)
        (lat - miles_to_deg radius) (lon - miles_to_deg radius)
        (clean_int (PyVal.str pminS) 0) (clean_int (PyVal.str pmaxS) 10000) =
        Except.ok hits)
    (hm : hits.mapM _slim = Except.ok slims) :
    search_listings apiToken collab lat lon radius pminS pmaxS ci co apiToken =
      Except.ok ⟨lat, lon, radius, hits.length, slims⟩ ∧
    ∀ i, (hits.get? i).map _slim = (slims.get? i).map Except.ok := by
  refine ⟨?_, mapM_slim_get? hits slims hm⟩
  unfold search_listings
  rw [if_neg (fun hne => hne rfl), if_neg (not_le.mpr hpm)]
  simp only [boundingBox, hc, hm]

/-- C9: with a valid token, `/search` raises HTTP 400 exactly when the
`clean_int`-parsed minimum is at least the parsed maximum; `clean_int`
returns its default on `None`, on unparsable strings (`ValueError`) and on
strings whose value overflows the float range (`OverflowError` from
`int(.)`); on a string that parses and rounds to a finite float it returns
`int(float(.))` of it, and the final `int(.)` step truncates the rounded
float toward zero (it agrees with the float's exact rational value
truncated toward zero). -/
theorem price_validation (apiToken : String) (collab : SearchCollab)
    (lat lon radius : Rat) (pminS pmaxS : String) (ci co : Option String)
    (d : Int) (s : String) (m e k : Int) (m1v : Nat) (Ecv : Int) :
    (search_listings apiToken collab lat lon radius pminS pmaxS ci co apiToken =
        Except.error (Failure.http HttpErr.badRequest) ↔
      clean_int (PyVal.str pminS) 0 ≥ clean_int (PyVal.str pmaxS) 10000) ∧
    clean_int PyVal.none d = d ∧
    (parseFloatLit s = Option.none → clean_int (PyVal.str s) d = d) ∧
    (parseFloatLit s = Option.some (m, e) → intOfFloat m e = Option.none →
      clean_int (PyVal.str s) d = d) ∧
    (parseFloatLit s = Option.some (m, e) → intOfFloat m e = Option.some k →
      clean_int (PyVal.str s) d = k) ∧
    (truncFloat m1v Ecv : Int) = ratTrunc (floatPairValQ m1v Ecv) := by
  refine ⟨⟨?_, ?_⟩, rfl, ?_, ?_, ?_, truncFloat_eq_ratTrunc m1v Ecv⟩
  · intro hbr
    unfold search_listings at hbr
    rw [if_neg (fun hne => hne rfl)] at hbr
    by_cases hge : clean_int (PyVal.str pminS) 0 ≥ clean_int (PyVal.str pmaxS) 10000
    · exact hge
    · rw [if_neg hge] at hbr
      rcases hcol : collab ci co (lat + miles_to_deg radius) (lon + miles_to_deg radius)
          (lat - miles_to_deg radius) (lon - miles_to_deg radius)
          (clean_int (PyVal.str pminS) 0) (clean_int (PyVal.str pmaxS) 10000) with he | hok
      · simp only [boundingBox, hcol] at hbr
        exact absurd (Failure.http.inj (Except.error.inj hbr)) (by intro h; cases h)
      · simp only [boundingBox, hcol] at hbr
        rcases hmm : hok.mapM _slim with he2 | hok2
        · rw [hmm] at hbr
          exact absurd (Except.error.inj hbr) (by intro h; cases h)
        · rw [hmm] at hbr
          exact Except.noConfusion hbr
  · intro hge
    unfold search_listings
    rw [if_neg (fun hne => hne rfl), if_pos hge]
  · intro hp
    simp [clean_int, hp]
  · intro hp hov
    simp [clean_int, hp, hov]
  · intro hp hk
    simp [clean_int, hp, hk]

theorem findKey_eq_some (l : List Char) (k : String) :
    findKey l = Option.some k ↔
      ∃ i, matchKeyAt (l.drop i) = Option.some k ∧
        ∀ j, j < i → matchKeyAt (l.drop j) = Option.none := by
  induction l with
  | nil =>
    simp only [findKey]
    constructor
    · intro h
      exact ⟨0, by simpa using h, fun j hj => absurd hj (Nat.not_lt_zero j)⟩
    · rintro ⟨i, hi, -⟩
      simpa using hi
  | cons c t ih =>
    rcases hm : matchKeyAt (c :: t) with - | k'
    · rw [show findKey (c :: t) = findKey t by rw [findKey, hm], ih]
      constructor
      · rintro ⟨i, hi, hj⟩
        refine ⟨i + 1, by simpa using hi, ?_⟩
        intro j hj1
        cases j with
        | zero => simpa using hm
        | succ j' => simpa using hj j' (by omega)
      · rintro ⟨i, hi, hj⟩
        cases i with
        | zero =>
          rw [List.drop_zero] at hi
          rw [hm] at hi
          exact Option.noConfusion hi
        | succ i' =>
          exact ⟨i', by simpa using hi, fun j hjlt => by simpa using hj (j + 1) (by omega)⟩
    · rw [show findKey (c :: t) = Option.some k' by rw [findKey, hm]]
      constructor
      · intro h
        refine ⟨0, ?_, fun j hj => absurd hj (Nat.not_lt_zero j)⟩
        rw [List.drop_zero, hm, h]
      · rintro ⟨i, hi, hj⟩
        cases i with
        | zero =>
          rw [List.drop_zero, hm] at hi
          exact hi
        | succ i' =>
          have h0 := hj 0 (by omega)
          rw [List.drop_zero, hm] at h0
          exact Option.noConfusion h0

theorem findKey_eq_none (l : List Char) :
    findKey l = Option.none ↔ ∀ i, matchKeyAt (l.drop i) = Option.none := by
  induction l with
  | nil =>
    simp only [findKey]
    constructor
    · intro h i
      simpa using h
    · intro h
      simpa using h 0
  | cons c t ih =>
    rcases hm : matchKeyAt (c :: t) with - | k'
    · rw [show findKey (c :: t) = findKey t by rw [findKey, hm], ih]
      constructor
      · intro h i
        cases i with
        | zero => simpa using hm
        | succ j => simpa using h j
      · intro h i
        simpa using h (i + 1)
    · rw [show findKey (c :: t) = Option.some k' by rw [findKey, hm]]
      constructor
      · intro h
        exact Option.noConfusion h
      · intro h
        have h0 := h 0
        rw [List.drop_zero, hm] at h0
        exact Option.noConfusion h0

/-- C10: for every fetched page body, the extraction step returns the
contents of the `key` capture group of the pattern's match at the leftmost
matching position when the pattern matches the body, and raises
`RuntimeError` exactly when the pattern matches at no position. -/
theorem api_get_first_match (body : String) :
    (∀ k, api_get body = Except.ok k ↔
      ∃ i, matchKeyAt (body.data.drop i) = Option.some k ∧
        ∀ j, j < i → matchKeyAt (body.data.drop j) = Option.none) ∧
    (api_get body = Except.error () ↔
      ∀ i, matchKeyAt (body.data.drop i) = Option.none) := by
  constructor
  · intro k
    rw [← findKey_eq_some]
    unfold api_get
    rcases h : findKey body.data with - | k' <;> simp
  · rw [← findKey_eq_none]
    unfold api_get
    rcases h : findKey body.data with - | k' <;> simp

/-! ## Witnesses -/

/-- Witness for C1: the record `{"coordinates": {"latitude": 40.0}}` has no
`listing` key, and normalizes to latitude 40.0. -/
theorem slim_toplevel_fallback_witness :
    outField (_slim (PyVal.dict [("coordinates", PyVal.dict [("latitude", PyVal.float 40)])]))
      "lat" = Option.some (PyVal.float 40) :=
  slim_toplevel_fallback [("coordinates", PyVal.dict [("latitude", PyVal.float 40)])]
    [("latitude", PyVal.float 40)] (PyVal.float 40) rfl rfl rfl rfl rfl rfl rfl

/-- Witness for C2: the scenario record is well-shaped, and the normalizer
returns a dict on it. -/
theorem slim_total_on_wellShaped_witness : okDict (_slim r5) = true :=
  slim_total_on_wellShaped r5 rfl

/-- Witness for C3: on the record `{}` the normalizer returns and its
output has exactly the eight keys. -/
theorem slim_output_fields_witness :
    outKeys (_slim (PyVal.dict [])) =
      Option.some ["id", "title", "price", "rating", "reviews", "lat", "lon", "url"] :=
  slim_output_fields (PyVal.dict [])
    (PyVal.dict
      [("id", PyVal.none), ("title", PyVal.none), ("price", PyVal.none),
       ("rating", PyVal.none), ("reviews", PyVal.none), ("lat", PyVal.none),
       ("lon", PyVal.none), ("url", PyVal.none)]) rfl

/-- Witness for C6: normalizing the scenario record twice in a batch gives
the same output both times. -/
theorem slim_deterministic_witness : out5 = out5 :=
  slim_deterministic r5 out5 out5 rfl

/-- Witness for C7: a collaborator returning the single raw hit `r5`
produces the echoed center, radius, count 1 and the normalized listing. -/
theorem search_result_echoes_witness :
    search_listings "t" collabFix 0 0 5 "0" "10000" Option.none Option.none "t" =
      Except.ok ⟨0, 0, 5, 1, [out5]⟩ :=
  (search_result_echoes "t" collabFix 0 0 5 "0" "10000" Option.none Option.none
    [r5] [out5] (by decide) rfl rfl).1

/-- Witness for C8: with the wrong token both handlers return HTTP 401. -/
theorem unauthorized_first_witness :
    calendar "t" deps0 "27955738" "2025-08-10" "2025-08-12" "x" =
      Except.error (Failure.http HttpErr.unauthorized) ∧
    search_listings "t" collab0 0 0 5 "0" "10000" Option.none Option.none "x" =
      Except.error (Failure.http HttpErr.unauthorized) :=
  unauthorized_first "t" "x" (by decide) deps0 "27955738" "2025-08-10" "2025-08-12"
    collab0 0 0 5 "0" "10000" Option.none Option.none

/-- Witness for C9: `"12.9"` truncates to 12, the PEP 515 string `"1_0"`
converts to 10, and `"1e309"` overflows the float range so the default is
returned. -/
theorem price_validation_witness :
    clean_int (PyVal.str "12.9") 0 = 12 ∧
    clean_int (PyVal.str "1_0") 0 = 10 ∧
    clean_int (PyVal.str "1e309") 0 = 0 :=
  ⟨(price_validation "t" collab0 0 0 5 "0" "10000" Option.none Option.none
      0 "12.9" 129 (-1) 12 0 0).2.2.2.2.1 (by decide) (by decide),
   (price_validation "t" collab0 0 0 5 "0" "10000" Option.none Option.none
      0 "1_0" 10 0 10 0 0).2.2.2.2.1 (by decide) (by decide),
   (price_validation "t" collab0 0 0 5 "0" "10000" Option.none Option.none
      0 "1e309" 1 309 0 0 0).2.2.2.1 (by decide) (by decide)⟩

/-- Witness for C10: on a page body containing the pattern once, the
extraction returns the key and the match position is leftmost. -/
theorem api_get_first_match_witness :
    ∃ i, matchKeyAt (body0.data.drop i) = Option.some "SECRET" ∧
      ∀ j, j < i → matchKeyAt (body0.data.drop j) = Option.none :=
  ((api_get_first_match body0).1 "SECRET").mp rfl
